import Mathlib

/-!
# Red-DiscordBot workflow scripts

A shallow embedding of the two `actions/github-script` callbacks

* `.github/workflows/scripts/close_and_reopen_pr.js`
* `.github/workflows/scripts/get_milestone_number_by_exact_title.js`

Each script is an `async function ({github, context})`.  A run of a script is
modelled by the list of effects it issues, in order, together with the way the
promise returned by the async function settles (fulfilled with a value, or
rejected with an error).
-/

set_option autoImplicit false

namespace RedCI

/-! ## JavaScript values and errors -/

/-- JavaScript values handled by the two scripts.  Strings are sequences of
code points; the scripts only compare strings and cut them at "/". -/
inductive JSVal where
  | undefined
  | null
  | str (s : String)
  | num (n : Int)
  deriving DecidableEq, Repr, Inhabited

/-- Errors with which a promise can be rejected. -/
inductive JSError where
  /-- A property read on `undefined`. -/
  | typeError (message : String)
  /-- A reference to an identifier that is bound nowhere. -/
  | referenceError (message : String)
  /-- A failure reported by the API client (the rejection reason of its promise). -/
  | requestError (message : String)
  deriving DecidableEq, Repr

/-- A promise, identified with the way it settles. -/
inductive Promise (α : Type) where
  | fulfilled (value : α)
  | rejected (reason : JSError)
  deriving DecidableEq, Repr

/-- The mapping `process.env`: a variable is either set to a string or missing. -/
abbrev Env := String → Option String

/-- Reading `process.env.NAME`: a missing variable reads as `undefined`. -/
def processEnv (env : Env) (name : String) : JSVal :=
  match env name with
  | some s => JSVal.str s
  | none => JSVal.undefined

/-- The method `Array.prototype.includes` on an array literal. -/
def jsIncludes (xs : List JSVal) (v : JSVal) : Bool :=
  decide (v ∈ xs)

/-- Pieces of a character list cut at every occurrence of `sep`. -/
def splitChars (sep : Char) : List Char → List (List Char)
  | [] => [[]]
  | c :: cs =>
    if c = sep then [] :: splitChars sep cs
    else
      match splitChars sep cs with
      | [] => [[c]]
      | p :: ps => (c :: p) :: ps

/-- The method `String.prototype.split` with a one-character separator. -/
def jsSplit (s : String) (sep : Char) : List String :=
  (splitChars sep s.toList).map String.mk

/-- Array destructuring: the element at a position, `undefined` past the end. -/
def arrayAt (xs : List String) (i : Nat) : JSVal :=
  match xs.get? i with
  | some s => JSVal.str s
  | none => JSVal.undefined

/-! ## Host objects -/

/-- The object `context.repo`. -/
structure Repo where
  owner : String
  repo : String
  deriving DecidableEq, Repr

/-- The `context` object handed to a script. -/
structure Context where
  repo : Repo
  deriving DecidableEq, Repr

/-- The argument object of `github.rest.issues.update`. -/
structure UpdateArgs where
  issue_number : JSVal
  owner : String
  repo : String
  state : String
  deriving DecidableEq, Repr

/-- One milestone node of the query result. -/
structure Milestone where
  number : Int
  title : String
  deriving DecidableEq, Repr

/-- The `pageInfo` object of the query result. -/
structure PageInfo where
  hasNextPage : Bool
  deriving DecidableEq, Repr

/-- The `milestones` connection of the query result. -/
structure MilestoneConnection where
  nodes : List Milestone
  pageInfo : PageInfo
  deriving DecidableEq, Repr

/-- The `repository` object of the query result. -/
structure RepositoryData where
  milestones : MilestoneConnection
  deriving DecidableEq, Repr

/-- The object with which the `github.graphql` promise is fulfilled. -/
structure GraphqlResponse where
  repository : RepositoryData
  deriving DecidableEq, Repr

/-- Milestone states of the query language. -/
inductive MilestoneState where
  | OPEN
  | CLOSED
  deriving DecidableEq, Repr

/-- The `milestones(...)` field of the query document. -/
structure MilestonesField where
  /-- The variable given as `query:`. -/
  query : String
  /-- The value given as `states:`. -/
  states : MilestoneState
  /-- The value given as `first:`. -/
  first : Nat
  /-- The fields selected under `nodes`. -/
  nodes : List String
  /-- The fields selected under `pageInfo`. -/
  pageInfo : List String
  deriving DecidableEq, Repr

/-- The `repository(...)` field of the query document. -/
structure RepositoryField where
  /-- The variable given as `owner:`. -/
  owner : String
  /-- The variable given as `name:`. -/
  name : String
  milestones : MilestonesField
  deriving DecidableEq, Repr

/-- The query document, as a syntax tree. -/
structure QueryDocument where
  operationName : String
  /-- The declared variables with their types. -/
  variableDefinitions : List (String × String)
  repository : RepositoryField
  deriving DecidableEq, Repr

/-- The options object passed to `github.graphql`. -/
structure GraphqlRequest where
  query : QueryDocument
  repo_owner : JSVal
  repo_name : JSVal
  milestone_title : JSVal
  deriving DecidableEq, Repr

/-- The API client `github`.  Both methods are asynchronous: a call returns a
promise.  The scripts call each method with pairwise different arguments, so a
client is determined by how it settles the promise of each call. -/
structure Github where
  rest_issues_update : UpdateArgs → Promise Unit
  graphql : GraphqlRequest → Promise GraphqlResponse

/-- The toolkit object `core` of the host, carrying the hook `setFailed`. -/
structure Core where
  label : String
  deriving DecidableEq, Repr

/-- The object the host passes to a script.  Both scripts destructure it as
`{github, context}`; any other property is left unread. -/
structure ScriptArgs where
  github : Github
  context : Context
  core : Option Core

/-- The global scope of the runtime, as far as the free identifiers of the
scripts are concerned: `process` and `console` always exist, `core` may or may
not be a global. -/
structure Globals where
  core : Option Core

/-! ## Effects and runs -/

/-- The observable effects of a script. -/
inductive Effect where
  /-- A call of `github.rest.issues.update`. -/
  | issuesUpdate (args : UpdateArgs)
  /-- A suspension on `new Promise(r => setTimeout(r, ms))`. -/
  | pause (ms : Nat)
  /-- A call of `github.graphql`. -/
  | graphql (request : GraphqlRequest)
  /-- A call of `console.log` with its first argument and the arrays passed
  after it. -/
  | consoleLog (message : String) (rest : List (List Milestone))
  /-- A call of `setFailed` on a toolkit object. -/
  | setFailed (core : Core) (message : String)
  deriving DecidableEq, Repr

/-- How a computation ends. -/
inductive Completion (α : Type) where
  | returned (value : α)
  | threw (error : JSError)
  deriving DecidableEq, Repr

/-- A run: the effects issued, in order, and the completion. -/
structure Script (α : Type) where
  trace : List Effect
  outcome : Completion α
  deriving DecidableEq, Repr

namespace Script

/-- Return a value without any effect. -/
def ret {α : Type} (a : α) : Script α :=
  { trace := [], outcome := Completion.returned a }

/-- Sequencing: the second part runs only when the first returned. -/
def andThen {α β : Type} (x : Script α) (f : α → Script β) : Script β :=
  match x.outcome with
  | Completion.threw e => { trace := x.trace, outcome := Completion.threw e }
  | Completion.returned a =>
    { trace := x.trace ++ (f a).trace, outcome := (f a).outcome }

/-- Throw an error. -/
def raise {α : Type} (e : JSError) : Script α :=
  { trace := [], outcome := Completion.threw e }

/-- Issue one effect. -/
def emit (e : Effect) : Script Unit :=
  { trace := [e], outcome := Completion.returned () }

end Script

instance : Monad Script where
  pure := Script.ret
  bind := Script.andThen

/-- The expression `await p`: the value of a fulfilled promise, and a throw of
the reason of a rejected one. -/
def await {α : Type} (p : Promise α) : Script α :=
  match p with
  | Promise.fulfilled v => Script.ret v
  | Promise.rejected e => Script.raise e

/-- The expression `await new Promise(r => setTimeout(r, ms))`. -/
def awaitTimeout (ms : Nat) : Script Unit :=
  Script.emit (Effect.pause ms)

/-- A call `github.rest.issues.update(args)`; its value is the promise. -/
def callIssuesUpdate (github : Github) (args : UpdateArgs) : Script (Promise Unit) := do
  Script.emit (Effect.issuesUpdate args)
  pure (github.rest_issues_update args)

/-- A call `github.graphql(request)`; its value is the promise. -/
def callGraphql (github : Github) (request : GraphqlRequest) :
    Script (Promise GraphqlResponse) := do
  Script.emit (Effect.graphql request)
  pure (github.graphql request)

/-! ## close_and_reopen_pr.js -/

/-- The loop `for (const new_state of ...)`, with the current value of the
variable `sleep_time`.  The promise of the update call is not awaited. -/
def closeAndReopenLoop (github : Github) (context : Context) (pr_number : JSVal) :
    Nat → List String → Script Unit
  | _, [] => pure ()
  | sleep_time, new_state :: rest => do
    if sleep_time ≠ 0 then
      awaitTimeout sleep_time
    let _ ← callIssuesUpdate github
      { issue_number := pr_number
        owner := context.repo.owner
        repo := context.repo.repo
        state := new_state }
    closeAndReopenLoop github context pr_number 2000 rest

/-- The script `close_and_reopen_pr.js`. -/
def close_and_reopen_pr (env : Env) (args : ScriptArgs) : Script JSVal :=
  let github := args.github
  let context := args.context
  let pr_number := processEnv env "PR_NUMBER"
  let pr_operation := processEnv env "PR_OPERATION"
  let sleep_time := 0
  if !(jsIncludes [JSVal.str "created", JSVal.str "updated"] pr_operation) then do
    Script.emit (Effect.consoleLog "PR was not created as there were no changes." [])
    pure JSVal.undefined
  else do
    closeAndReopenLoop github context pr_number sleep_time ["closed", "open"]
    pure JSVal.undefined

/-! ## get_milestone_number_by_exact_title.js -/

/-- The method call `value.split(sep)`: reading a property of `undefined`
throws a `TypeError`.  The values read from `process.env` are strings or
`undefined`. -/
def callSplit (value : JSVal) (sep : Char) : Script (List String) :=
  match value with
  | JSVal.str s => pure (jsSplit s sep)
  | _ => Script.raise (JSError.typeError "Cannot read properties of undefined (reading split)")

/-- The query document of the script. -/
def getMilestoneNumberByTitle : QueryDocument :=
  { operationName := "getMilestoneNumberByTitle"
    variableDefinitions :=
      [("$repo_owner", "String!"), ("$repo_name", "String!"), ("$milestone_title", "String!")]
    repository :=
      { owner := "$repo_owner"
        name := "$repo_name"
        milestones :=
          { query := "$milestone_title"
            states := MilestoneState.OPEN
            first := 100
            nodes := ["number", "title"]
            pageInfo := ["hasNextPage"] } } }

/-- Resolution of the identifier `core`.  The parameter list of the script
binds `github` and `context` only and the module declares nothing, so `core`
is looked up in the global scope; an unbound identifier throws a
`ReferenceError`. -/
def resolveCore (globals : Globals) : Script Core :=
  match globals.core with
  | some core => pure core
  | none => Script.raise (JSError.referenceError "core is not defined")

/-- The loop `for (const milestone of milestones)` with its `return`: the
number returned from inside the loop, or `none` when the loop runs to its
end. -/
def exactTitleLoop (milestone_title : JSVal) : List Milestone → Option Int
  | [] => none
  | milestone :: rest =>
    if JSVal.str milestone.title = milestone_title then some milestone.number
    else exactTitleLoop milestone_title rest

/-- The script `get_milestone_number_by_exact_title.js`. -/
def get_milestone_number_by_exact_title (globals : Globals) (env : Env) (args : ScriptArgs) :
    Script JSVal := do
  let github := args.github
  let milestone_title := processEnv env "MILESTONE_TITLE"
  let parts ← callSplit (processEnv env "GITHUB_REPOSITORY") '/'
  let repo_owner := arrayAt parts 0
  let repo_name := arrayAt parts 1
  let promise ← callGraphql github
    { query := getMilestoneNumberByTitle
      repo_owner := repo_owner
      repo_name := repo_name
      milestone_title := milestone_title }
  let response ← await promise
  let milestones := response.repository.milestones.nodes
  let hasNextPage := response.repository.milestones.pageInfo.hasNextPage
  if hasNextPage then
    let core ← resolveCore globals
    Script.emit (Effect.setFailed core "Impossible happened! :)")
    pure JSVal.undefined
  else
    match exactTitleLoop milestone_title milestones with
    | some number => pure (JSVal.num number)
    | none =>
      Script.emit
        (Effect.consoleLog "The milestone was not found. API returned the array: %o" [milestones])
      pure JSVal.null

/-! ## Observations on runs -/

/-- The state-update calls of a trace, in order. -/
def updateCalls : List Effect → List UpdateArgs
  | [] => []
  | Effect.issuesUpdate a :: rest => a :: updateCalls rest
  | _ :: rest => updateCalls rest

/-- The pauses of a trace, in order. -/
def pauses : List Effect → List Nat
  | [] => []
  | Effect.pause ms :: rest => ms :: pauses rest
  | _ :: rest => pauses rest

/-- The queries of a trace, in order. -/
def queries : List Effect → List GraphqlRequest
  | [] => []
  | Effect.graphql r :: rest => r :: queries rest
  | _ :: rest => queries rest

/-- The messages passed to `setFailed` in a trace, in order. -/
def failureReports : List Effect → List String
  | [] => []
  | Effect.setFailed _ m :: rest => m :: failureReports rest
  | _ :: rest => failureReports rest

/-- A run returns normally when the promise of the async function is fulfilled. -/
def returnsNormally {α : Type} (run : Script α) : Bool :=
  match run.outcome with
  | Completion.returned _ => true
  | Completion.threw _ => false

/-- A run returns a milestone number when it is fulfilled with a number. -/
def returnsNumber (run : Script JSVal) : Bool :=
  match run.outcome with
  | Completion.returned (JSVal.num _) => true
  | _ => false

/-- The host marks the step failed when the promise of the script is rejected
or when `setFailed` was called during the run. -/
def stepFailed {α : Type} (run : Script α) : Bool :=
  !(returnsNormally run) || !(failureReports run.trace).isEmpty

/-- The page with which a query is answered. -/
def pageOf (nodes : List Milestone) (hasNextPage : Bool) : GraphqlResponse :=
  { repository := { milestones := { nodes := nodes, pageInfo := { hasNextPage := hasNextPage } } } }

/-- The options object the script builds when `GITHUB_REPOSITORY` reads `r`
and `MILESTONE_TITLE` reads `milestone_title`. -/
def issuedRequest (r : String) (milestone_title : JSVal) : GraphqlRequest :=
  { query := getMilestoneNumberByTitle
    repo_owner := arrayAt (jsSplit r '/') 0
    repo_name := arrayAt (jsSplit r '/') 1
    milestone_title := milestone_title }

/-- Every query issued during the run is answered by the client with the given
response. -/
def answers (github : Github) (run : Script JSVal) (response : GraphqlResponse) : Prop :=
  ∀ request ∈ queries run.trace, github.graphql request = Promise.fulfilled response

instance (github : Github) (run : Script JSVal) (response : GraphqlResponse) :
    Decidable (answers github run response) :=
  inferInstanceAs
    (Decidable (∀ request ∈ queries run.trace, github.graphql request = Promise.fulfilled response))

/-! ## Sample hosts -/

/-- An environment given by its four variables. -/
def mkEnv (pr_number pr_operation milestone_title github_repository : Option String) : Env :=
  fun name =>
    if name = "PR_NUMBER" then pr_number
    else if name = "PR_OPERATION" then pr_operation
    else if name = "MILESTONE_TITLE" then milestone_title
    else if name = "GITHUB_REPOSITORY" then github_repository
    else none

/-- A client whose update calls succeed and whose query is fulfilled with the
given page. -/
def clientReturning (nodes : List Milestone) (hasNextPage : Bool) : Github :=
  { rest_issues_update := fun _ => Promise.fulfilled ()
    graphql := fun _ => Promise.fulfilled (pageOf nodes hasNextPage) }

/-- A client whose update call with the given state is rejected, every other
call being fulfilled. -/
def clientFailingUpdate (state : String) : Github :=
  { rest_issues_update := fun a =>
      if a.state = state then Promise.rejected (JSError.requestError "Not Found")
      else Promise.fulfilled ()
    graphql := fun _ => Promise.fulfilled (pageOf [] false) }

/-- A client whose query is rejected. -/
def clientFailingQuery : Github :=
  { rest_issues_update := fun _ => Promise.fulfilled ()
    graphql := fun _ => Promise.rejected (JSError.requestError "Bad credentials") }

/-- The argument object `{github, context}` for the repository
`Cog-Creators/Red-DiscordBot`. -/
def sampleArgs (github : Github) : ScriptArgs :=
  { github := github
    context := { repo := { owner := "Cog-Creators", repo := "Red-DiscordBot" } }
    core := none }

/-- The global scope of Node.js under `actions/github-script`: the toolkit is
handed to inline scripts as a function argument, not as a global. -/
def nodeGlobals : Globals :=
  { core := none }

/-! ## Auxiliary lemmas -/

theorem splitChars_no_sep (sep : Char) (cs : List Char) (h : sep ∉ cs) :
    splitChars sep cs = [cs] := by
  induction cs with
  | nil => rfl
  | cons c cs ih =>
    have hc : c ≠ sep := fun e => h (by simp [e])
    have hcs : sep ∉ cs := fun e => h (by simp [e])
    simp [splitChars, hc, ih hcs]

theorem splitChars_append_sep (sep : Char) (as bs : List Char) (h : sep ∉ as) :
    splitChars sep (as ++ sep :: bs) = as :: splitChars sep bs := by
  induction as with
  | nil => simp [splitChars]
  | cons c cs ih =>
    have hc : c ≠ sep := fun e => h (by simp [e])
    have hcs : sep ∉ cs := fun e => h (by simp [e])
    simp [splitChars, hc, ih hcs]

theorem jsSplit_owner_repo (owner repo : String)
    (ho : '/' ∉ owner.toList) (hr : '/' ∉ repo.toList) :
    jsSplit (owner ++ "/" ++ repo) '/' = [owner, repo] := by
  have h : (owner ++ "/" ++ repo).toList = owner.toList ++ '/' :: repo.toList := by
    simp [String.toList]
  unfold jsSplit
  rw [h, splitChars_append_sep _ _ _ ho, splitChars_no_sep _ _ hr]
  simp [String.toList]

theorem close_and_reopen_pr_changed (env : Env) (args : ScriptArgs)
    (hop : env "PR_OPERATION" = some "created" ∨ env "PR_OPERATION" = some "updated") :
    close_and_reopen_pr env args =
      { trace :=
          [ Effect.issuesUpdate
              { issue_number := processEnv env "PR_NUMBER"
                owner := args.context.repo.owner
                repo := args.context.repo.repo
                state := "closed" },
            Effect.pause 2000,
            Effect.issuesUpdate
              { issue_number := processEnv env "PR_NUMBER"
                owner := args.context.repo.owner
                repo := args.context.repo.repo
                state := "open" } ]
        outcome := Completion.returned JSVal.undefined } := by
  rcases hop with h | h <;>
    simp [close_and_reopen_pr, closeAndReopenLoop, processEnv, h, jsIncludes, callIssuesUpdate,
      awaitTimeout, Script.emit, bind, Script.andThen, pure, Script.ret]

theorem close_and_reopen_pr_unchanged (env : Env) (args : ScriptArgs)
    (hc : env "PR_OPERATION" ≠ some "created") (hu : env "PR_OPERATION" ≠ some "updated") :
    close_and_reopen_pr env args =
      { trace := [Effect.consoleLog "PR was not created as there were no changes." []]
        outcome := Completion.returned JSVal.undefined } := by
  have hinc : jsIncludes [JSVal.str "created", JSVal.str "updated"]
      (processEnv env "PR_OPERATION") = false := by
    unfold jsIncludes processEnv
    cases h : env "PR_OPERATION" with
    | none => simp
    | some s =>
      have h1 : s ≠ "created" := fun e => hc (by rw [h, e])
      have h2 : s ≠ "updated" := fun e => hu (by rw [h, e])
      simp [h1, h2]
  simp [close_and_reopen_pr, hinc, Script.emit, bind, Script.andThen, pure, Script.ret]

theorem milestone_run (globals : Globals) (env : Env) (args : ScriptArgs) (r : String)
    (hrepo : env "GITHUB_REPOSITORY" = some r) :
    get_milestone_number_by_exact_title globals env args =
      match args.github.graphql (issuedRequest r (processEnv env "MILESTONE_TITLE")) with
      | Promise.rejected e =>
        { trace := [Effect.graphql (issuedRequest r (processEnv env "MILESTONE_TITLE"))]
          outcome := Completion.threw e }
      | Promise.fulfilled response =>
        if response.repository.milestones.pageInfo.hasNextPage then
          match globals.core with
          | some core =>
            { trace := [Effect.graphql (issuedRequest r (processEnv env "MILESTONE_TITLE")),
                Effect.setFailed core "Impossible happened! :)"]
              outcome := Completion.returned JSVal.undefined }
          | none =>
            { trace := [Effect.graphql (issuedRequest r (processEnv env "MILESTONE_TITLE"))]
              outcome := Completion.threw (JSError.referenceError "core is not defined") }
        else
          match exactTitleLoop (processEnv env "MILESTONE_TITLE")
              response.repository.milestones.nodes with
          | some number =>
            { trace := [Effect.graphql (issuedRequest r (processEnv env "MILESTONE_TITLE"))]
              outcome := Completion.returned (JSVal.num number) }
          | none =>
            { trace := [Effect.graphql (issuedRequest r (processEnv env "MILESTONE_TITLE")),
                Effect.consoleLog "The milestone was not found. API returned the array: %o"
                  [response.repository.milestones.nodes]]
              outcome := Completion.returned JSVal.null } := by
  have hsplit : processEnv env "GITHUB_REPOSITORY" = JSVal.str r := by
    simp [processEnv, hrepo]
  unfold get_milestone_number_by_exact_title
  rw [hsplit]
  cases hq : args.github.graphql (issuedRequest r (processEnv env "MILESTONE_TITLE")) with
  | rejected e =>
    simp [issuedRequest] at hq
    simp [issuedRequest, callSplit, callGraphql, await, hq, Script.emit, Script.raise, bind, Script.andThen,
      pure, Script.ret]
  | fulfilled response =>
    simp [issuedRequest] at hq
    cases hn : response.repository.milestones.pageInfo.hasNextPage with
    | true =>
      cases hc : globals.core <;>
        simp [issuedRequest, callSplit, callGraphql, await, hq, hn, hc, resolveCore, Script.emit, Script.raise,
          bind, Script.andThen, pure, Script.ret]
    | false =>
      cases hl : exactTitleLoop (processEnv env "MILESTONE_TITLE")
          response.repository.milestones.nodes <;>
        simp [issuedRequest, callSplit, callGraphql, await, hq, hn, hl, Script.emit, Script.raise,
          bind, Script.andThen, pure, Script.ret]

theorem milestone_run_missing_repository (globals : Globals) (env : Env) (args : ScriptArgs)
    (hrepo : env "GITHUB_REPOSITORY" = none) :
    get_milestone_number_by_exact_title globals env args =
      { trace := []
        outcome := Completion.threw
          (JSError.typeError "Cannot read properties of undefined (reading split)") } := by
  have hsplit : processEnv env "GITHUB_REPOSITORY" = JSVal.undefined := by
    simp [processEnv, hrepo]
  unfold get_milestone_number_by_exact_title
  rw [hsplit]
  simp [callSplit, Script.raise, bind, Script.andThen]

theorem milestone_queries (globals : Globals) (env : Env) (args : ScriptArgs) (r : String)
    (hrepo : env "GITHUB_REPOSITORY" = some r) :
    queries (get_milestone_number_by_exact_title globals env args).trace =
      [issuedRequest r (processEnv env "MILESTONE_TITLE")] := by
  rw [milestone_run globals env args r hrepo]
  split
  · rfl
  · split
    · split <;> rfl
    · split <;> rfl

theorem exactTitleLoop_eq_find (title : String) (nodes : List Milestone) :
    exactTitleLoop (JSVal.str title) nodes =
      (nodes.find? (fun x => decide (x.title = title))).map Milestone.number := by
  induction nodes with
  | nil => rfl
  | cons m rest ih =>
    by_cases h : m.title = title
    · simp [exactTitleLoop, List.find?, h]
    · simp [exactTitleLoop, List.find?, h, ih]

theorem exactTitleLoop_filter (title : String) (nodes : List Milestone) :
    exactTitleLoop (JSVal.str title) nodes =
      ((nodes.filter (fun x => decide (x.title = title))).head?).map Milestone.number := by
  rw [exactTitleLoop_eq_find, List.filter_head?]

theorem exactTitleLoop_undefined (nodes : List Milestone) :
    exactTitleLoop JSVal.undefined nodes = none := by
  induction nodes with
  | nil => rfl
  | cons m rest ih => simp [exactTitleLoop, ih]

theorem milestone_answer (globals : Globals) (env : Env) (args : ScriptArgs) (r : String)
    (response : GraphqlResponse)
    (hrepo : env "GITHUB_REPOSITORY" = some r)
    (hans : answers args.github (get_milestone_number_by_exact_title globals env args) response) :
    args.github.graphql (issuedRequest r (processEnv env "MILESTONE_TITLE")) =
      Promise.fulfilled response := by
  apply hans
  rw [milestone_queries globals env args r hrepo]
  simp

theorem milestone_run_last_page (globals : Globals) (env : Env) (args : ScriptArgs)
    (r title : String) (nodes : List Milestone)
    (hrepo : env "GITHUB_REPOSITORY" = some r)
    (htitle : env "MILESTONE_TITLE" = some title)
    (hans : answers args.github (get_milestone_number_by_exact_title globals env args)
      (pageOf nodes false)) :
    get_milestone_number_by_exact_title globals env args =
      match exactTitleLoop (JSVal.str title) nodes with
      | some number =>
        { trace := [Effect.graphql (issuedRequest r (JSVal.str title))]
          outcome := Completion.returned (JSVal.num number) }
      | none =>
        { trace := [Effect.graphql (issuedRequest r (JSVal.str title)),
            Effect.consoleLog "The milestone was not found. API returned the array: %o" [nodes]]
          outcome := Completion.returned JSVal.null } := by
  have hq := milestone_answer globals env args r (pageOf nodes false) hrepo hans
  have ht : processEnv env "MILESTONE_TITLE" = JSVal.str title := by
    simp [processEnv, htitle]
  rw [milestone_run globals env args r hrepo, hq, ht]
  simp [pageOf]

theorem milestone_run_next_page (globals : Globals) (env : Env) (args : ScriptArgs)
    (r : String) (nodes : List Milestone)
    (hrepo : env "GITHUB_REPOSITORY" = some r)
    (hans : answers args.github (get_milestone_number_by_exact_title globals env args)
      (pageOf nodes true)) :
    get_milestone_number_by_exact_title globals env args =
      match globals.core with
      | some core =>
        { trace := [Effect.graphql (issuedRequest r (processEnv env "MILESTONE_TITLE")),
            Effect.setFailed core "Impossible happened! :)"]
          outcome := Completion.returned JSVal.undefined }
      | none =>
        { trace := [Effect.graphql (issuedRequest r (processEnv env "MILESTONE_TITLE"))]
          outcome := Completion.threw (JSError.referenceError "core is not defined") } := by
  have hq := milestone_answer globals env args r (pageOf nodes true) hrepo hans
  rw [milestone_run globals env args r hrepo, hq]
  simp [pageOf]

/-- The query of the milestone script is awaited: a rejected query rejects the
script with the same reason. -/
theorem milestone_run_rejected (globals : Globals) (env : Env) (args : ScriptArgs)
    (r : String) (e : JSError)
    (hrepo : env "GITHUB_REPOSITORY" = some r)
    (hrej : args.github.graphql (issuedRequest r (processEnv env "MILESTONE_TITLE")) =
      Promise.rejected e) :
    get_milestone_number_by_exact_title globals env args =
      { trace := [Effect.graphql (issuedRequest r (processEnv env "MILESTONE_TITLE"))]
        outcome := Completion.threw e } := by
  rw [milestone_run globals env args r hrepo, hrej]

/-! ## close_and_reopen_pr.js: the claims -/

/-- C1: when `PR_OPERATION` is "created" or "updated", the effects of the
script are exactly one update call with state "closed", then one pause of 2000,
then one update call with state "open"; both calls carry the `PR_NUMBER` value
as `issue_number` and the owner and repo of the context. -/
theorem close_and_reopen_pr_effects (env : Env) (github : Github) (core : Option Core)
    (number owner repo : String)
    (hnum : env "PR_NUMBER" = some number)
    (hop : env "PR_OPERATION" = some "created" ∨ env "PR_OPERATION" = some "updated") :
    (close_and_reopen_pr env
      { github := github, context := { repo := { owner := owner, repo := repo } },
        core := core }).trace =
      [ Effect.issuesUpdate
          { issue_number := JSVal.str number, owner := owner, repo := repo, state := "closed" },
        Effect.pause 2000,
        Effect.issuesUpdate
          { issue_number := JSVal.str number, owner := owner, repo := repo, state := "open" } ] := by
  rw [close_and_reopen_pr_changed env _ hop]
  simp [processEnv, hnum]

/-- Witness of C1: the scenario `PR_OPERATION="updated"`, `PR_NUMBER="42"`. -/
theorem close_and_reopen_pr_effects_witness :
    (close_and_reopen_pr (mkEnv (some "42") (some "updated") none none)
      { github := clientReturning [] false,
        context := { repo := { owner := "Cog-Creators", repo := "Red-DiscordBot" } },
        core := none }).trace =
      [ Effect.issuesUpdate
          { issue_number := JSVal.str "42", owner := "Cog-Creators", repo := "Red-DiscordBot",
            state := "closed" },
        Effect.pause 2000,
        Effect.issuesUpdate
          { issue_number := JSVal.str "42", owner := "Cog-Creators", repo := "Red-DiscordBot",
            state := "open" } ] :=
  close_and_reopen_pr_effects (mkEnv (some "42") (some "updated") none none)
    (clientReturning [] false) none "42" "Cog-Creators" "Red-DiscordBot" rfl (Or.inr rfl)

/-- C2: for every `PR_OPERATION` string other than "created" and "updated" the
script makes no update call, performs no pause and returns normally; its only
effect is the log line. -/
theorem close_and_reopen_pr_noop (env : Env) (args : ScriptArgs) (operation : String)
    (hop : env "PR_OPERATION" = some operation)
    (hc : operation ≠ "created") (hu : operation ≠ "updated") :
    updateCalls (close_and_reopen_pr env args).trace = [] ∧
    pauses (close_and_reopen_pr env args).trace = [] ∧
    (close_and_reopen_pr env args).trace =
      [Effect.consoleLog "PR was not created as there were no changes." []] ∧
    (close_and_reopen_pr env args).outcome = Completion.returned JSVal.undefined := by
  have h1 : env "PR_OPERATION" ≠ some "created" := by
    rw [hop]; intro e; exact hc (Option.some.inj e)
  have h2 : env "PR_OPERATION" ≠ some "updated" := by
    rw [hop]; intro e; exact hu (Option.some.inj e)
  rw [close_and_reopen_pr_unchanged env args h1 h2]
  exact ⟨rfl, rfl, rfl, rfl⟩

/-- Witness of C2: the operations "no_changes", "Created" and the empty string. -/
theorem close_and_reopen_pr_noop_witness :
    (close_and_reopen_pr (mkEnv (some "42") (some "no_changes") none none)
      (sampleArgs (clientReturning [] false))).outcome = Completion.returned JSVal.undefined ∧
    updateCalls (close_and_reopen_pr (mkEnv (some "42") (some "Created") none none)
      (sampleArgs (clientReturning [] false))).trace = [] ∧
    pauses (close_and_reopen_pr (mkEnv (some "42") (some "") none none)
      (sampleArgs (clientReturning [] false))).trace = [] :=
  ⟨(close_and_reopen_pr_noop (mkEnv (some "42") (some "no_changes") none none)
      (sampleArgs (clientReturning [] false)) "no_changes" rfl (by decide) (by decide)).2.2.2,
   (close_and_reopen_pr_noop (mkEnv (some "42") (some "Created") none none)
      (sampleArgs (clientReturning [] false)) "Created" rfl (by decide) (by decide)).1,
   (close_and_reopen_pr_noop (mkEnv (some "42") (some "") none none)
      (sampleArgs (clientReturning [] false)) "" rfl (by decide) (by decide)).2.1⟩

/-- C6 on the code: an update call whose promise is rejected does not end the
script in that failure.  With the "closed" call rejected, and likewise with the
"open" call rejected, the script still issues both calls and its promise is
fulfilled. -/
theorem close_and_reopen_pr_rejected_update_dropped :
    (clientFailingUpdate "closed").rest_issues_update
        { issue_number := JSVal.str "42", owner := "Cog-Creators", repo := "Red-DiscordBot",
          state := "closed" } = Promise.rejected (JSError.requestError "Not Found") ∧
    close_and_reopen_pr (mkEnv (some "42") (some "updated") none none)
        (sampleArgs (clientFailingUpdate "closed")) =
      { trace :=
          [ Effect.issuesUpdate
              { issue_number := JSVal.str "42", owner := "Cog-Creators",
                repo := "Red-DiscordBot", state := "closed" },
            Effect.pause 2000,
            Effect.issuesUpdate
              { issue_number := JSVal.str "42", owner := "Cog-Creators",
                repo := "Red-DiscordBot", state := "open" } ]
        outcome := Completion.returned JSVal.undefined } ∧
    (clientFailingUpdate "open").rest_issues_update
        { issue_number := JSVal.str "42", owner := "Cog-Creators", repo := "Red-DiscordBot",
          state := "open" } = Promise.rejected (JSError.requestError "Not Found") ∧
    (close_and_reopen_pr (mkEnv (some "42") (some "updated") none none)
        (sampleArgs (clientFailingUpdate "open"))).outcome =
      Completion.returned JSVal.undefined := by
  refine ⟨by decide, by decide, by decide, by decide⟩

/-! ## get_milestone_number_by_exact_title.js: the claims -/

/-- C3: when exactly one returned node has the requested title and the response
reports no further page, the script returns the number of that node; the
result is the same for every permutation of the node list and for every list
that differs from it only in nodes with other titles. -/
theorem milestone_unique_exact_title (globals : Globals) (env : Env) (args args' : ScriptArgs)
    (r title : String) (nodes nodes' : List Milestone) (m : Milestone)
    (hrepo : env "GITHUB_REPOSITORY" = some r)
    (htitle : env "MILESTONE_TITLE" = some title)
    (hone : nodes.filter (fun x => decide (x.title = title)) = [m])
    (hans : answers args.github (get_milestone_number_by_exact_title globals env args)
      (pageOf nodes false))
    (hans' : answers args'.github (get_milestone_number_by_exact_title globals env args')
      (pageOf nodes' false)) :
    (get_milestone_number_by_exact_title globals env args).outcome =
      Completion.returned (JSVal.num m.number) ∧
    (nodes'.Perm nodes →
      (get_milestone_number_by_exact_title globals env args').outcome =
        (get_milestone_number_by_exact_title globals env args).outcome) ∧
    (nodes'.filter (fun x => decide (x.title = title)) =
        nodes.filter (fun x => decide (x.title = title)) →
      (get_milestone_number_by_exact_title globals env args').outcome =
        (get_milestone_number_by_exact_title globals env args).outcome) := by
  have key : ∀ (a : ScriptArgs) (l : List Milestone),
      answers a.github (get_milestone_number_by_exact_title globals env a) (pageOf l false) →
      l.filter (fun x => decide (x.title = title)) = [m] →
      (get_milestone_number_by_exact_title globals env a).outcome =
        Completion.returned (JSVal.num m.number) := by
    intro a l ha hl
    rw [milestone_run_last_page globals env a r title l hrepo htitle ha,
      exactTitleLoop_filter, hl]
    rfl
  refine ⟨key args nodes hans hone, ?_, ?_⟩
  · intro hperm
    have hf : nodes'.filter (fun x => decide (x.title = title)) = [m] := by
      have hp := List.Perm.filter (fun x => decide (x.title = title)) hperm
      rw [hone] at hp
      exact List.perm_singleton.mp hp
    rw [key args' nodes' hans' hf, key args nodes hans hone]
  · intro hsame
    rw [key args' nodes' hans' (hsame.trans hone), key args nodes hans hone]

/-- Witness of C3: the scenario of the specification, with the two nodes in
either order. -/
theorem milestone_unique_exact_title_witness :
    (get_milestone_number_by_exact_title nodeGlobals
      (mkEnv none none (some "Release 2.0") (some "Cog-Creators/Red-DiscordBot"))
      (sampleArgs (clientReturning
        [{ number := 5, title := "Release 2.0" }, { number := 6, title := "Release 2.0 Beta" }]
        false))).outcome = Completion.returned (JSVal.num 5) ∧
    (get_milestone_number_by_exact_title nodeGlobals
      (mkEnv none none (some "Release 2.0") (some "Cog-Creators/Red-DiscordBot"))
      (sampleArgs (clientReturning
        [{ number := 6, title := "Release 2.0 Beta" }, { number := 5, title := "Release 2.0" }]
        false))).outcome =
    (get_milestone_number_by_exact_title nodeGlobals
      (mkEnv none none (some "Release 2.0") (some "Cog-Creators/Red-DiscordBot"))
      (sampleArgs (clientReturning
        [{ number := 5, title := "Release 2.0" }, { number := 6, title := "Release 2.0 Beta" }]
        false))).outcome :=
  have h := milestone_unique_exact_title nodeGlobals
    (mkEnv none none (some "Release 2.0") (some "Cog-Creators/Red-DiscordBot"))
    (sampleArgs (clientReturning
      [{ number := 5, title := "Release 2.0" }, { number := 6, title := "Release 2.0 Beta" }]
      false))
    (sampleArgs (clientReturning
      [{ number := 6, title := "Release 2.0 Beta" }, { number := 5, title := "Release 2.0" }]
      false))
    "Cog-Creators/Red-DiscordBot" "Release 2.0"
    [{ number := 5, title := "Release 2.0" }, { number := 6, title := "Release 2.0 Beta" }]
    [{ number := 6, title := "Release 2.0 Beta" }, { number := 5, title := "Release 2.0" }]
    { number := 5, title := "Release 2.0" }
    rfl rfl (by decide) (by decide) (by decide)
  ⟨h.1, h.2.1 (List.Perm.swap _ _ [])⟩

/-- C4: when no returned node has a title exactly equal to the requested title
and the response reports no further page, the script logs the candidates and
returns null without failing. -/
theorem milestone_no_exact_title (globals : Globals) (env : Env) (args : ScriptArgs)
    (r title : String) (nodes : List Milestone)
    (hrepo : env "GITHUB_REPOSITORY" = some r)
    (htitle : env "MILESTONE_TITLE" = some title)
    (hnone : ∀ x ∈ nodes, x.title ≠ title)
    (hans : answers args.github (get_milestone_number_by_exact_title globals env args)
      (pageOf nodes false)) :
    get_milestone_number_by_exact_title globals env args =
      { trace := [Effect.graphql (issuedRequest r (JSVal.str title)),
          Effect.consoleLog "The milestone was not found. API returned the array: %o" [nodes]]
        outcome := Completion.returned JSVal.null } ∧
    stepFailed (get_milestone_number_by_exact_title globals env args) = false := by
  have hloop : exactTitleLoop (JSVal.str title) nodes = none := by
    rw [exactTitleLoop_eq_find]
    have hfind : nodes.find? (fun x => decide (x.title = title)) = none := by
      rw [List.find?_eq_none]
      intro x hx
      simpa using hnone x hx
    rw [hfind]
    rfl
  rw [milestone_run_last_page globals env args r title nodes hrepo htitle hans, hloop]
  exact ⟨rfl, rfl⟩

/-- Witness of C4: the empty list, and titles that contain the requested title
or differ from it in letter case only. -/
theorem milestone_no_exact_title_witness :
    (get_milestone_number_by_exact_title nodeGlobals
      (mkEnv none none (some "Release 2.0") (some "Cog-Creators/Red-DiscordBot"))
      (sampleArgs (clientReturning [] false))).outcome = Completion.returned JSVal.null ∧
    (get_milestone_number_by_exact_title nodeGlobals
      (mkEnv none none (some "Release 2.0") (some "Cog-Creators/Red-DiscordBot"))
      (sampleArgs (clientReturning
        [{ number := 6, title := "Release 2.0 Beta" }, { number := 7, title := "release 2.0" }]
        false))).outcome = Completion.returned JSVal.null :=
  ⟨congrArg Script.outcome (milestone_no_exact_title nodeGlobals
      (mkEnv none none (some "Release 2.0") (some "Cog-Creators/Red-DiscordBot"))
      (sampleArgs (clientReturning [] false))
      "Cog-Creators/Red-DiscordBot" "Release 2.0" [] rfl rfl (by decide) (by decide)).1,
   congrArg Script.outcome (milestone_no_exact_title nodeGlobals
      (mkEnv none none (some "Release 2.0") (some "Cog-Creators/Red-DiscordBot"))
      (sampleArgs (clientReturning
        [{ number := 6, title := "Release 2.0 Beta" }, { number := 7, title := "release 2.0" }]
        false))
      "Cog-Creators/Red-DiscordBot" "Release 2.0"
      [{ number := 6, title := "Release 2.0 Beta" }, { number := 7, title := "release 2.0" }]
      rfl rfl (by decide) (by decide)).1⟩

/-- C5: when the response has `hasNextPage` true, the step fails and the script
never returns a milestone number, whatever the nodes of the first page are. -/
theorem milestone_next_page_fails (globals : Globals) (env : Env) (args : ScriptArgs)
    (r : String) (nodes : List Milestone)
    (hrepo : env "GITHUB_REPOSITORY" = some r)
    (hans : answers args.github (get_milestone_number_by_exact_title globals env args)
      (pageOf nodes true)) :
    stepFailed (get_milestone_number_by_exact_title globals env args) = true ∧
    returnsNumber (get_milestone_number_by_exact_title globals env args) = false ∧
    ∀ n : Int, (get_milestone_number_by_exact_title globals env args).outcome ≠
      Completion.returned (JSVal.num n) := by
  rw [milestone_run_next_page globals env args r nodes hrepo hans]
  cases globals.core with
  | none => exact ⟨rfl, rfl, fun n h => by cases h⟩
  | some core => exact ⟨rfl, rfl, fun n h => by cases h⟩

/-- Witness of C5: the first page holds a node with exactly the requested
title. -/
theorem milestone_next_page_fails_witness :
    stepFailed (get_milestone_number_by_exact_title nodeGlobals
      (mkEnv none none (some "Release 2.0") (some "Cog-Creators/Red-DiscordBot"))
      (sampleArgs (clientReturning [{ number := 5, title := "Release 2.0" }] true))) = true ∧
    returnsNumber (get_milestone_number_by_exact_title nodeGlobals
      (mkEnv none none (some "Release 2.0") (some "Cog-Creators/Red-DiscordBot"))
      (sampleArgs (clientReturning [{ number := 5, title := "Release 2.0" }] true))) = false :=
  have h := milestone_next_page_fails nodeGlobals
    (mkEnv none none (some "Release 2.0") (some "Cog-Creators/Red-DiscordBot"))
    (sampleArgs (clientReturning [{ number := 5, title := "Release 2.0" }] true))
    "Cog-Creators/Red-DiscordBot" [{ number := 5, title := "Release 2.0" }]
    rfl (by decide)
  ⟨h.1, h.2.1⟩

/-- C7 on the code: with `hasNextPage` true under Node.js, where `core` is no
global, the script calls no failure hook and does not return normally: the
reference to `core` throws a `ReferenceError`, also when the host passes a
toolkit object in the argument. -/
theorem milestone_next_page_reference_error :
    get_milestone_number_by_exact_title nodeGlobals
        (mkEnv none none (some "Release 2.0") (some "Cog-Creators/Red-DiscordBot"))
        { github := clientReturning [{ number := 5, title := "Release 2.0" }] true,
          context := { repo := { owner := "Cog-Creators", repo := "Red-DiscordBot" } },
          core := some { label := "host" } } =
      { trace :=
          [Effect.graphql
            { query := getMilestoneNumberByTitle
              repo_owner := JSVal.str "Cog-Creators"
              repo_name := JSVal.str "Red-DiscordBot"
              milestone_title := JSVal.str "Release 2.0" }]
        outcome := Completion.threw (JSError.referenceError "core is not defined") } ∧
    failureReports (get_milestone_number_by_exact_title nodeGlobals
        (mkEnv none none (some "Release 2.0") (some "Cog-Creators/Red-DiscordBot"))
        { github := clientReturning [{ number := 5, title := "Release 2.0" }] true,
          context := { repo := { owner := "Cog-Creators", repo := "Red-DiscordBot" } },
          core := some { label := "host" } }).trace = [] ∧
    returnsNormally (get_milestone_number_by_exact_title nodeGlobals
        (mkEnv none none (some "Release 2.0") (some "Cog-Creators/Red-DiscordBot"))
        { github := clientReturning [{ number := 5, title := "Release 2.0" }] true,
          context := { repo := { owner := "Cog-Creators", repo := "Red-DiscordBot" } },
          core := some { label := "host" } }) = false := by
  refine ⟨by decide, by decide, by decide⟩

/-- C8 as stated fails: with `PR_OPERATION` missing, the script
`close_and_reopen_pr.js` returns normally. -/
theorem missing_pr_operation_returns_normally :
    mkEnv (some "42") none none none "PR_OPERATION" = none ∧
    returnsNormally (close_and_reopen_pr (mkEnv (some "42") none none none)
      (sampleArgs (clientReturning [] false))) = true ∧
    close_and_reopen_pr (mkEnv (some "42") none none none)
        (sampleArgs (clientReturning [] false)) =
      { trace := [Effect.consoleLog "PR was not created as there were no changes." []]
        outcome := Completion.returned JSVal.undefined } := by
  refine ⟨by decide, by decide, by decide⟩

/-- C8 amended: of the four variables only a missing `GITHUB_REPOSITORY` ends
its script in a runtime failure by itself, a `TypeError` before any query is
issued.  A missing `PR_OPERATION` makes the pull-request script log and return
normally without any call.  A missing `PR_NUMBER` is not checked: the
pull-request script returns normally whatever the operation is, and for
"created" or "updated" its run is the usual one with an undefined
`issue_number` in both update calls.  A missing `MILESTONE_TITLE` is not
checked: the single query carries an undefined `milestone_title`, after which
a rejected query rejects the script and a last page yields null. -/
theorem missing_variable_behaviour (globals : Globals) (args : ScriptArgs)
    (envRepo envOp envNum envTitle : Env) (r : String)
    (hRepo : envRepo "GITHUB_REPOSITORY" = none)
    (hOp : envOp "PR_OPERATION" = none)
    (hNum : envNum "PR_NUMBER" = none)
    (hTitle : envTitle "MILESTONE_TITLE" = none)
    (hTitleRepo : envTitle "GITHUB_REPOSITORY" = some r) :
    get_milestone_number_by_exact_title globals envRepo args =
      { trace := []
        outcome := Completion.threw
          (JSError.typeError "Cannot read properties of undefined (reading split)") } ∧
    close_and_reopen_pr envOp args =
      { trace := [Effect.consoleLog "PR was not created as there were no changes." []]
        outcome := Completion.returned JSVal.undefined } ∧
    (close_and_reopen_pr envNum args).outcome = Completion.returned JSVal.undefined ∧
    (envNum "PR_OPERATION" = some "created" ∨ envNum "PR_OPERATION" = some "updated" →
      close_and_reopen_pr envNum args =
        { trace :=
            [ Effect.issuesUpdate
                { issue_number := JSVal.undefined, owner := args.context.repo.owner,
                  repo := args.context.repo.repo, state := "closed" },
              Effect.pause 2000,
              Effect.issuesUpdate
                { issue_number := JSVal.undefined, owner := args.context.repo.owner,
                  repo := args.context.repo.repo, state := "open" } ]
          outcome := Completion.returned JSVal.undefined }) ∧
    (envNum "PR_OPERATION" ≠ some "created" → envNum "PR_OPERATION" ≠ some "updated" →
      close_and_reopen_pr envNum args =
        { trace := [Effect.consoleLog "PR was not created as there were no changes." []]
          outcome := Completion.returned JSVal.undefined }) ∧
    get_milestone_number_by_exact_title globals envTitle args =
      (match args.github.graphql (issuedRequest r JSVal.undefined) with
        | Promise.rejected e =>
          { trace := [Effect.graphql (issuedRequest r JSVal.undefined)]
            outcome := Completion.threw e }
        | Promise.fulfilled response =>
          if response.repository.milestones.pageInfo.hasNextPage then
            match globals.core with
            | some core =>
              { trace := [Effect.graphql (issuedRequest r JSVal.undefined),
                  Effect.setFailed core "Impossible happened! :)"]
                outcome := Completion.returned JSVal.undefined }
            | none =>
              { trace := [Effect.graphql (issuedRequest r JSVal.undefined)]
                outcome := Completion.threw (JSError.referenceError "core is not defined") }
          else
            { trace := [Effect.graphql (issuedRequest r JSVal.undefined),
                Effect.consoleLog "The milestone was not found. API returned the array: %o"
                  [response.repository.milestones.nodes]]
              outcome := Completion.returned JSVal.null }) ∧
    queries (get_milestone_number_by_exact_title globals envTitle args).trace =
      [issuedRequest r JSVal.undefined] ∧
    (∀ e : JSError,
      args.github.graphql (issuedRequest r JSVal.undefined) = Promise.rejected e →
      (get_milestone_number_by_exact_title globals envTitle args).outcome =
        Completion.threw e) ∧
    (∀ nodes : List Milestone,
      args.github.graphql (issuedRequest r JSVal.undefined) =
        Promise.fulfilled (pageOf nodes false) →
      (get_milestone_number_by_exact_title globals envTitle args).outcome =
        Completion.returned JSVal.null) := by
  have hT : processEnv envTitle "MILESTONE_TITLE" = JSVal.undefined := by
    simp [processEnv, hTitle]
  have hN : processEnv envNum "PR_NUMBER" = JSVal.undefined := by
    simp [processEnv, hNum]
  have hrunT := milestone_run globals envTitle args r hTitleRepo
  rw [hT] at hrunT
  refine ⟨milestone_run_missing_repository globals envRepo args hRepo, ?_, ?_, ?_, ?_, ?_,
    ?_, ?_, ?_⟩
  · apply close_and_reopen_pr_unchanged envOp args <;> rw [hOp] <;> simp
  · by_cases hop : envNum "PR_OPERATION" = some "created" ∨
        envNum "PR_OPERATION" = some "updated"
    · rw [close_and_reopen_pr_changed envNum args hop]
    · rw [close_and_reopen_pr_unchanged envNum args (fun h => hop (Or.inl h))
        (fun h => hop (Or.inr h))]
  · intro hop
    rw [close_and_reopen_pr_changed envNum args hop, hN]
  · intro hc hu
    exact close_and_reopen_pr_unchanged envNum args hc hu
  · rw [hrunT]
    cases args.github.graphql (issuedRequest r JSVal.undefined) with
    | rejected e => rfl
    | fulfilled response => simp [exactTitleLoop_undefined]
  · rw [milestone_queries globals envTitle args r hTitleRepo, hT]
  · intro e he
    rw [hrunT, he]
  · intro nodes hn
    rw [hrunT, hn]
    simp [pageOf, exactTitleLoop_undefined]

/-- Witness of the amended C8: each variable missing in turn, with a client
whose update calls are fulfilled and whose query is rejected. -/
theorem missing_variable_behaviour_witness :
    (get_milestone_number_by_exact_title nodeGlobals
      (mkEnv none none (some "Release 2.0") none) (sampleArgs clientFailingQuery)).outcome =
      Completion.threw
        (JSError.typeError "Cannot read properties of undefined (reading split)") ∧
    (close_and_reopen_pr (mkEnv (some "42") none none none)
      (sampleArgs clientFailingQuery)).outcome = Completion.returned JSVal.undefined ∧
    close_and_reopen_pr (mkEnv none (some "created") none none)
        (sampleArgs clientFailingQuery) =
      { trace :=
          [ Effect.issuesUpdate
              { issue_number := JSVal.undefined, owner := "Cog-Creators",
                repo := "Red-DiscordBot", state := "closed" },
            Effect.pause 2000,
            Effect.issuesUpdate
              { issue_number := JSVal.undefined, owner := "Cog-Creators",
                repo := "Red-DiscordBot", state := "open" } ]
        outcome := Completion.returned JSVal.undefined } ∧
    (get_milestone_number_by_exact_title nodeGlobals
      (mkEnv none none none (some "Cog-Creators/Red-DiscordBot"))
      (sampleArgs clientFailingQuery)).outcome =
      Completion.threw (JSError.requestError "Bad credentials") :=
  have h := missing_variable_behaviour nodeGlobals (sampleArgs clientFailingQuery)
    (mkEnv none none (some "Release 2.0") none)
    (mkEnv (some "42") none none none)
    (mkEnv none (some "created") none none)
    (mkEnv none none none (some "Cog-Creators/Red-DiscordBot"))
    "Cog-Creators/Red-DiscordBot" rfl rfl rfl rfl rfl
  ⟨congrArg Script.outcome h.1, congrArg Script.outcome h.2.1,
    h.2.2.2.1 (Or.inl rfl),
    h.2.2.2.2.2.2.2.1 (JSError.requestError "Bad credentials") rfl⟩

/-- C9: with `hasNextPage` false, the result is the number of the first node,
in the order returned, whose title is exactly the requested title, and null
when there is none. -/
theorem milestone_first_exact_title (globals : Globals) (env : Env) (args : ScriptArgs)
    (r title : String) (nodes : List Milestone)
    (hrepo : env "GITHUB_REPOSITORY" = some r)
    (htitle : env "MILESTONE_TITLE" = some title)
    (hans : answers args.github (get_milestone_number_by_exact_title globals env args)
      (pageOf nodes false)) :
    (get_milestone_number_by_exact_title globals env args).outcome =
      (match nodes.find? (fun x => decide (x.title = title)) with
        | some x => Completion.returned (JSVal.num x.number)
        | none => Completion.returned JSVal.null) ∧
    (∀ (before after : List Milestone) (m : Milestone),
      nodes = before ++ m :: after → (∀ x ∈ before, x.title ≠ title) → m.title = title →
      (get_milestone_number_by_exact_title globals env args).outcome =
        Completion.returned (JSVal.num m.number)) := by
  have hrun : (get_milestone_number_by_exact_title globals env args).outcome =
      (match nodes.find? (fun x => decide (x.title = title)) with
        | some x => Completion.returned (JSVal.num x.number)
        | none => Completion.returned JSVal.null) := by
    rw [milestone_run_last_page globals env args r title nodes hrepo htitle hans,
      exactTitleLoop_eq_find]
    cases nodes.find? (fun x => decide (x.title = title)) <;> rfl
  refine ⟨hrun, ?_⟩
  intro before after m hsplit hbefore hm
  have hfind : nodes.find? (fun x => decide (x.title = title)) = some m := by
    have hb : before.find? (fun x => decide (x.title = title)) = none := by
      rw [List.find?_eq_none]
      intro x hx
      simpa using hbefore x hx
    rw [hsplit, List.find?_append, hb]
    simp [List.find?, hm]
  rw [hrun, hfind]

/-- Witness of C9: two nodes share the requested title; the earlier one wins. -/
theorem milestone_first_exact_title_witness :
    (get_milestone_number_by_exact_title nodeGlobals
      (mkEnv none none (some "Release 2.0") (some "Cog-Creators/Red-DiscordBot"))
      (sampleArgs (clientReturning
        [{ number := 6, title := "Release 2.0 Beta" }, { number := 9, title := "Release 2.0" },
          { number := 5, title := "Release 2.0" }]
        false))).outcome = Completion.returned (JSVal.num 9) :=
  (milestone_first_exact_title nodeGlobals
    (mkEnv none none (some "Release 2.0") (some "Cog-Creators/Red-DiscordBot"))
    (sampleArgs (clientReturning
      [{ number := 6, title := "Release 2.0 Beta" }, { number := 9, title := "Release 2.0" },
        { number := 5, title := "Release 2.0" }]
      false))
    "Cog-Creators/Red-DiscordBot" "Release 2.0"
    [{ number := 6, title := "Release 2.0 Beta" }, { number := 9, title := "Release 2.0" },
      { number := 5, title := "Release 2.0" }]
    rfl rfl (by decide)).2
    [{ number := 6, title := "Release 2.0 Beta" }] [{ number := 5, title := "Release 2.0" }]
    { number := 9, title := "Release 2.0" } rfl (by decide) rfl

/-- C10: when `GITHUB_REPOSITORY` is `owner/repo` with no further "/", the
script issues exactly one query on every path; its variables are the owner,
the repo and the unchanged title, and its document asks for the first 100
milestones in the OPEN state matching the title variable. -/
theorem milestone_single_query (globals : Globals) (env : Env) (args : ScriptArgs)
    (owner repo title : String)
    (ho : '/' ∉ owner.toList) (hr : '/' ∉ repo.toList)
    (hrepo : env "GITHUB_REPOSITORY" = some (owner ++ "/" ++ repo))
    (htitle : env "MILESTONE_TITLE" = some title) :
    queries (get_milestone_number_by_exact_title globals env args).trace =
      [ { query := getMilestoneNumberByTitle
          repo_owner := JSVal.str owner
          repo_name := JSVal.str repo
          milestone_title := JSVal.str title } ] ∧
    getMilestoneNumberByTitle.repository.owner = "$repo_owner" ∧
    getMilestoneNumberByTitle.repository.name = "$repo_name" ∧
    getMilestoneNumberByTitle.repository.milestones.query = "$milestone_title" ∧
    getMilestoneNumberByTitle.repository.milestones.states = MilestoneState.OPEN ∧
    getMilestoneNumberByTitle.repository.milestones.first = 100 := by
  refine ⟨?_, rfl, rfl, rfl, rfl, rfl⟩
  have ht : processEnv env "MILESTONE_TITLE" = JSVal.str title := by
    simp [processEnv, htitle]
  rw [milestone_queries globals env args (owner ++ "/" ++ repo) hrepo, ht]
  simp [issuedRequest, jsSplit_owner_repo owner repo ho hr, arrayAt]

/-- Witness of C10: the repository `Cog-Creators/Red-DiscordBot`, on the path
where the query is rejected. -/
theorem milestone_single_query_witness :
    queries (get_milestone_number_by_exact_title nodeGlobals
      (mkEnv none none (some "Release 2.0") (some "Cog-Creators/Red-DiscordBot"))
      (sampleArgs clientFailingQuery)).trace =
      [ { query := getMilestoneNumberByTitle
          repo_owner := JSVal.str "Cog-Creators"
          repo_name := JSVal.str "Red-DiscordBot"
          milestone_title := JSVal.str "Release 2.0" } ] :=
  (milestone_single_query nodeGlobals
    (mkEnv none none (some "Release 2.0") (some "Cog-Creators/Red-DiscordBot"))
    (sampleArgs clientFailingQuery) "Cog-Creators" "Red-DiscordBot" "Release 2.0"
    (by decide) (by decide) rfl rfl).1

end RedCI
